import Mathlib

/-!
Verification of the pyMode dependency-installation script (`install.py`).

The script is sequential shell-command orchestration.  We embed it shallowly:
the process state (working directory, environment variables, filesystem
directories and files, printed output) is an explicit structure, and each
effectful source line becomes an abstract operation `Op` with a deterministic
success transition `applyOp`.  External effects (network download, the invoked
native tools) do not change the modelled state.  Any operation may raise at
run time (network errors, filesystem errors); which operation — if any —
raises on a given run is an input of the model (`FailSpec`), mirroring the
fact that the script itself never inspects exit status and only reacts to
raised exceptions.
-/

/-- Process state of the running script.  `cwd` is the absolute current
working directory as a list of path components.  `dirs` is the set of
directories that exist, keyed by the path string the script uses for them
(each such string is only ever used from one fixed working directory, so
string keys are unambiguous).  `files` maps a file path to its content. -/
structure PState where
  cwd : List String
  env : List (String × String)
  dirs : List String
  files : List (String × String)
  output : List String
deriving DecidableEq, Repr

/-- Change-directory actions appearing in the script: `os.chdir` on a
relative subdirectory, on `"../"`, or on an absolute saved path. -/
inductive ChAction
  | push (dir : String)
  | pop
  | set (abs : List String)
deriving DecidableEq, Repr

/-- Abstract effectful operations, one per effectful source line. -/
inductive Op
  | loggerInit (fname : String)
  | print (msg : String)
  | envDel (key : String)
  | envSet (key value : String)
  | download (url : String)
  | saveFile (fname content : String)
  | call (args : List String)
  | chdir (a : ChAction)
  | rmtree (path : String)
  | removeFile (path : String)
  | mkdirIfAbsent (path : String)
  | writeDepsFile (path content : String)
deriving DecidableEq, Repr

def applyCh : ChAction → List String → List String
  | .push d, c => c ++ [d]
  | .pop, c => c.dropLast
  | .set a, _ => a

/-- Replace (or create) the file `p` with content `c`: `open(p, "w")`
truncates, so any previous content is gone. -/
def setFile (files : List (String × String)) (p c : String) : List (String × String) :=
  (p, c) :: files.filter (fun kv => kv.1 != p)

def getFile (files : List (String × String)) (p : String) : Option String :=
  (files.find? (fun kv => kv.1 == p)).map (fun kv => kv.2)

def setEnv (env : List (String × String)) (k v : String) : List (String × String) :=
  (k, v) :: env.filter (fun kv => kv.1 != k)

/-- Success transition of each operation.
`loggerInit`: `Logger.__init__` removes a stale log file and opens the name
in append mode, so afterwards the file exists with empty content either way.
`envDel`: `if key in os.environ: del os.environ[key]`.
`download` and `call` touch only the outside world (network, subprocesses);
the script ignores `subprocess.call`'s exit status entirely. -/
def applyOp : Op → PState → PState
  | .loggerInit fname, s => { s with files := setFile s.files fname "" }
  | .print m, s => { s with output := s.output ++ [m] }
  | .envDel k, s =>
      if s.env.any (fun kv => kv.1 == k) then
        { s with env := s.env.filter (fun kv => kv.1 != k) }
      else s
  | .envSet k v, s => { s with env := setEnv s.env k v }
  | .download _, s => s
  | .saveFile f c, s => { s with files := setFile s.files f c }
  | .call _, s => s
  | .chdir a, s => { s with cwd := applyCh a s.cwd }
  | .rmtree p, s => { s with dirs := s.dirs.filter (fun q => q != p) }
  | .removeFile p, s => { s with files := s.files.filter (fun kv => kv.1 != p) }
  | .mkdirIfAbsent p, s => if p ∈ s.dirs then s else { s with dirs := p :: s.dirs }
  | .writeDepsFile p c, s => { s with files := setFile s.files p c }

def runOps (ops : List Op) (s : PState) : PState :=
  ops.foldl (fun s op => applyOp op s) s

-- Package parameters (source lines 38-42).
def pymode_deps : String := ".pymode_deps"
def PETSC_VERSION : String := "3.12.1"
def SLEPC_VERSION : String := "3.12.1"

/-- `print_message(s)` prints `"".join(["\033[92m", s, "\033[0m"])`. -/
def print_message (s : String) : Op :=
  Op.print ("\x1b[92m" ++ s ++ "\x1b[0m")

/-- `write_deps_file(home_dir, include_dir, install_dir)`: opens
`home_dir + "/" + pymode_deps` in mode `"w"` (truncating) and writes the
three `KEY=VALUE` lines. `include_dir` is accepted but unused, as in the
source. -/
def write_deps_file (home_dir include_dir install_dir : String) : List Op :=
  [ Op.writeDepsFile (home_dir ++ "/" ++ pymode_deps)
      ("PETSC_DIR=" ++ install_dir ++ "\n" ++ "PETSC_ARCH=" ++ "\n" ++
        "SLEPC_DIR=" ++ install_dir ++ "\n") ]

/-- `install_petsc(install_dir)` as its ordered sequence of effectful
operations, one per source line (lines 84-137), with `content` standing for
the downloaded response body `r.content`. -/
def install_petsc (install_dir : String) (content : String) : List Op :=
  [ Op.envDel "PETSC_DIR",
    Op.envDel "PETSC_ARCH",
    print_message "Downloading PETSc...",
    Op.download ("http://ftp.mcs.anl.gov/pub/petsc/release-snapshots/petsc-" ++
      PETSC_VERSION ++ ".tar.gz"),
    Op.saveFile ("petsc-" ++ PETSC_VERSION ++ ".tar.gz") content,
    Op.call ["tar", "xvzf", "petsc-" ++ PETSC_VERSION ++ ".tar.gz"],
    Op.chdir (ChAction.push ("petsc-" ++ PETSC_VERSION)),
    print_message "Compiling PETSc...",
    Op.call ["./configure", "--with-scalar-type=complex", "--with-mpi=1",
      "--COPTFLAGS='-O3'", "--FOPTFLAGS='-O3'", "--CXXOPTFLAGS='-O3'",
      "--with-debugging=0", "--prefix=" ++ install_dir,
      "--download-scalapack", "--download-mumps", "--download-openblas"],
    Op.call ["make", "all", "test"],
    print_message "Installing PETSc...",
    Op.call ["make", "install"],
    Op.envSet "PETSC_DIR" install_dir,
    print_message "Cleaning up working directory...",
    Op.chdir ChAction.pop,
    Op.rmtree ("petsc-" ++ PETSC_VERSION) ]

/-- `install_slepc(install_dir)` as its ordered operations (lines 140-171). -/
def install_slepc (install_dir : String) (content : String) : List Op :=
  [ Op.envDel "SLEPC_DIR",
    print_message "Downloading SLEPc source...",
    Op.download ("http://slepc.upv.es/download/distrib/slepc-" ++
      SLEPC_VERSION ++ ".tar.gz"),
    Op.saveFile ("slepc-" ++ SLEPC_VERSION ++ ".tar.gz") content,
    Op.call ["tar", "xvzf", "slepc-" ++ SLEPC_VERSION ++ ".tar.gz"],
    print_message "Compiling SLEPc...",
    Op.chdir (ChAction.push ("slepc-" ++ SLEPC_VERSION)),
    Op.call ["./configure", "--prefix=" ++ install_dir],
    Op.call ["make", "all"],
    Op.call ["make", "install"],
    Op.call ["make", "test"],
    Op.chdir ChAction.pop,
    Op.rmtree ("slepc-" ++ SLEPC_VERSION),
    Op.removeFile ("slepc-" ++ SLEPC_VERSION ++ ".tar.gz") ]

/-- Resolution of the install root (lines 205-209): default
`home + "/.pymode/"`, or the `--prefix=` argument verbatim. -/
def resolveInstallDir (home : String) : Option String → String
  | none => home ++ "/.pymode/"
  | some p => p

/-- The three guarded `os.makedirs` calls of the configuration-resolution
phase (lines 212-223). -/
def dirSetupOps (install_dir : String) : List Op :=
  [ Op.mkdirIfAbsent install_dir,
    Op.mkdirIfAbsent (install_dir ++ "include/"),
    Op.mkdirIfAbsent (install_dir ++ "lib/") ]

/-- Operations before the build-workspace preparation: logger setup
(line 190), the `print(install_dir)` that happens only in the prefix branch
(line 210), then directory setup. -/
def resolveOps (home : String) (pfx : Option String) : List Op :=
  Op.loggerInit "install.log" ::
    ((match pfx with
      | none => []
      | some p => [Op.print p]) ++ dirSetupOps (resolveInstallDir home pfx))

def build_dir : String := "./build/"

/-- `install_begin(build_dir)` is `os.chdir("./build/")`: enter the `build`
subdirectory of the current working directory. -/
def install_begin : List Op := [Op.chdir (ChAction.push "build")]

/-- Everything `install_deps` runs before the `try` block: configuration
resolution, `os.makedirs(build_dir)` (lines 227-229), and `install_begin`. -/
def preOps (home : String) (pfx : Option String) : List Op :=
  resolveOps home pfx ++ [Op.mkdirIfAbsent build_dir] ++ install_begin

/-- `install_end(start_dir, build_dir)` (lines 181-185): `os.chdir` back to
the absolute start directory, then delete the build directory if it exists. -/
def install_end (start_dir : List String) (bdir : String) (s : PState) : PState :=
  let s1 := { s with cwd := start_dir }
  if bdir ∈ s1.dirs then { s1 with dirs := s1.dirs.filter (fun q => q != bdir) }
  else s1

/-- The body of the `try` block (lines 236-240): both installers, then the
manifest write.  The success-path `install_end` call (line 239) is commented
out in the source and therefore absent. -/
def tryBody (home install_dir petscContent slepcContent : String) : List Op :=
  install_petsc install_dir petscContent ++ install_slepc install_dir slepcContent ++
    write_deps_file home (install_dir ++ "include/") install_dir

def finishedMsg : Op := print_message "Finished installing pymode dependencies!"

/-- Which operation of the run, if any, raises an exception.  `pre i` means
the `i`-th operation before the `try` block raises (so the exception
propagates out of `install_deps` uncaught); `body i` means the `i`-th
operation of the `try` body raises (caught by the `except` handler). -/
inductive FailSpec
  | ok
  | pre (i : Nat)
  | body (i : Nat)
deriving DecidableEq, Repr

structure RunResult where
  state : PState
  uncaught : Bool
deriving DecidableEq, Repr

/-- `install_deps()` (lines 188-245).  `current_dir = os.getcwd()` is read
at line 226, before any `os.chdir`, so it equals the starting working
directory `s0.cwd`.  A raising operation is modelled as having none of its
effect; operations before it have all of theirs.  On a caught exception the
handler prints the exception text `errMsg`, runs `install_end`, and — like
the source — execution falls through to the unconditional final message. -/
def install_deps (home : String) (pfx : Option String)
    (petscContent slepcContent errMsg : String) (fail : FailSpec) (s0 : PState) :
    RunResult :=
  let body := tryBody home (resolveInstallDir home pfx) petscContent slepcContent
  match fail with
  | .pre i => ⟨runOps ((preOps home pfx).take i) s0, true⟩
  | .ok =>
      ⟨applyOp finishedMsg (runOps body (runOps (preOps home pfx) s0)), false⟩
  | .body i =>
      ⟨applyOp finishedMsg
        (install_end s0.cwd build_dir
          (applyOp (Op.print errMsg)
            (runOps (body.take i) (runOps (preOps home pfx) s0)))), false⟩

/-- The `Logger` class (lines 45-62): `terminal` is the original stdout
stream's accumulated content, `log` the log file's content. -/
structure Logger where
  terminal : String
  log : String
deriving DecidableEq, Repr

/-- `Logger.__init__`: the old log file is removed if present and the name
is opened in append mode, so the log starts empty; the original terminal
stream keeps whatever it already holds. -/
def Logger.init (terminal0 : String) : Logger :=
  { terminal := terminal0, log := "" }

/-- `Logger.write`: forward the message to the terminal, then to the log. -/
def Logger.write (l : Logger) (message : String) : Logger :=
  { terminal := l.terminal ++ message, log := l.log ++ message }

def Logger.writeAll (l : Logger) (msgs : List String) : Logger :=
  msgs.foldl Logger.write l

/-- Concatenation of a list of messages, in order. -/
def concatMsgs : List String → String
  | [] => ""
  | m :: ms => m ++ concatMsgs ms

-- Classifiers over operations, used to state trace properties.

def isEnvDelB : Op → Bool
  | .envDel _ => true
  | _ => false

def isDownloadB : Op → Bool
  | .download _ => true
  | _ => false

def isConfigureB : Op → Bool
  | .call args => args.head? == some "./configure"
  | _ => false

def isMkdirB : Op → Bool
  | .mkdirIfAbsent _ => true
  | _ => false

def isDepsWriteB : Op → Bool
  | .writeDepsFile _ _ => true
  | _ => false

/-- `true` when the operation cannot remove directory `p`. -/
def keepsDirB (p : String) : Op → Bool
  | .rmtree q => p != q
  | _ => true

def opOut : Op → Option String
  | .print m => some m
  | _ => none

/-- The messages an operation sequence prints, in order. -/
def outputsOf (ops : List Op) : List String := ops.filterMap opOut

/-- A concrete starting state used to evaluate the model on closed runs. -/
def initState : PState :=
  { cwd := ["home", "user"], env := [("PETSC_DIR", "/old"), ("SLEPC_DIR", "/old")],
    dirs := [], files := [], output := [] }

-- Basic run lemmas.

lemma runOps_nil (s : PState) : runOps [] s = s := rfl

lemma runOps_cons (op : Op) (ops : List Op) (s : PState) :
    runOps (op :: ops) s = runOps ops (applyOp op s) := rfl

lemma runOps_append (l₁ l₂ : List Op) (s : PState) :
    runOps (l₁ ++ l₂) s = runOps l₂ (runOps l₁ s) := by
  simp [runOps, List.foldl_append]

-- Framing: which state components each operation can touch.

lemma cwd_applyOp (op : Op) (s : PState) :
    (applyOp op s).cwd = match op with
      | .chdir a => applyCh a s.cwd
      | _ => s.cwd := by
  cases op <;> simp only [applyOp] <;> (try split) <;> rfl

lemma dirs_applyOp_print (m : String) (s : PState) :
    (applyOp (Op.print m) s).dirs = s.dirs := rfl

lemma output_applyOp (op : Op) (s : PState) :
    (applyOp op s).output = s.output ++ (opOut op).toList := by
  cases op <;> simp only [applyOp, opOut, Option.toList] <;>
    (try split) <;> simp

lemma output_runOps (ops : List Op) (s : PState) :
    (runOps ops s).output = s.output ++ outputsOf ops := by
  induction ops generalizing s with
  | nil => simp [runOps_nil, outputsOf]
  | cons op ops ih =>
      rw [runOps_cons, ih, output_applyOp]
      simp [outputsOf, List.filterMap_cons]
      cases h : opOut op <;> simp [h]

lemma install_end_cwd (sd : List String) (b : String) (s : PState) :
    (install_end sd b s).cwd = sd := by
  simp only [install_end]
  split <;> rfl

lemma install_end_output (sd : List String) (b : String) (s : PState) :
    (install_end sd b s).output = s.output := by
  simp only [install_end]
  split <;> rfl

lemma install_end_not_mem (sd : List String) (b : String) (s : PState) :
    b ∉ (install_end sd b s).dirs := by
  simp only [install_end]
  split
  · simp [List.mem_filter]
  · next h => exact h

-- Membership in the directory set.

lemma mem_dirs_applyOp (p : String) (op : Op) (s : PState)
    (h : p ∈ s.dirs) (hk : keepsDirB p op = true) : p ∈ (applyOp op s).dirs := by
  cases op <;> simp only [applyOp, keepsDirB] at *
  case envDel k =>
    split <;> exact h
  case rmtree q =>
    exact List.mem_filter.mpr ⟨h, hk⟩
  case mkdirIfAbsent q =>
    split
    · exact h
    · exact List.mem_cons_of_mem _ h
  all_goals exact h

lemma mem_dirs_runOps (ops : List Op) (p : String) (s : PState)
    (h : p ∈ s.dirs) (hk : ops.all (keepsDirB p) = true) : p ∈ (runOps ops s).dirs := by
  induction ops generalizing s with
  | nil => exact h
  | cons op ops ih =>
      rw [List.all_cons, Bool.and_eq_true] at hk
      exact ih _ (mem_dirs_applyOp p op s h hk.1) hk.2

lemma mkdir_mem_self (p : String) (s : PState) :
    p ∈ (applyOp (Op.mkdirIfAbsent p) s).dirs := by
  simp only [applyOp]
  split
  · next h => exact h
  · exact List.mem_cons_self _ _

lemma mkdir_of_mem (p : String) (s : PState) (h : p ∈ s.dirs) :
    applyOp (Op.mkdirIfAbsent p) s = s := by
  simp only [applyOp]
  exact if_pos h

-- Files.

lemma getFile_setFile (files : List (String × String)) (p c : String) :
    getFile (setFile files p c) p = some c := by
  simp [getFile, setFile, List.find?]

lemma files_applyOp_print (m : String) (s : PState) :
    (applyOp (Op.print m) s).files = s.files := rfl

lemma cwd_applyOp_print (m : String) (s : PState) :
    (applyOp (Op.print m) s).cwd = s.cwd := rfl

lemma output_applyOp_print (m : String) (s : PState) :
    (applyOp (Op.print m) s).output = s.output ++ [m] := rfl

lemma finishedMsg_eq :
    finishedMsg =
      Op.print ("\x1b[92m" ++ "Finished installing pymode dependencies!" ++ "\x1b[0m") := rfl

-- Working-directory bookkeeping: only `chdir` operations move `cwd`.

def opCh : Op → Option ChAction
  | .chdir a => some a
  | _ => none

lemma cwd_runOps_chactions (ops : List Op) (s : PState) :
    (runOps ops s).cwd =
      (ops.filterMap opCh).foldl (fun c a => applyCh a c) s.cwd := by
  induction ops generalizing s with
  | nil => rfl
  | cons op ops ih =>
      rw [runOps_cons, ih]
      cases op <;> simp [opCh, cwd_applyOp]

lemma opCh_preOps (home : String) (pfx : Option String) :
    (preOps home pfx).filterMap opCh = [ChAction.push "build"] := by
  cases pfx <;> rfl

lemma opCh_tryBody (home d pC sC : String) :
    (tryBody home d pC sC).filterMap opCh =
      [ChAction.push ("petsc-" ++ PETSC_VERSION), ChAction.pop,
       ChAction.push ("slepc-" ++ SLEPC_VERSION), ChAction.pop] := rfl

-- Build-workspace bookkeeping.

lemma build_dir_mem_preOps (home : String) (pfx : Option String) (s0 : PState) :
    build_dir ∈ (runOps (preOps home pfx) s0).dirs := by
  rw [preOps, runOps_append, runOps_append]
  exact mkdir_mem_self _ _

lemma tryBody_keeps_build (home d pC sC : String) :
    (tryBody home d pC sC).all (keepsDirB build_dir) = true := rfl

-- Directory-setup facts for the configuration resolver.

lemma dirSetup_run (d : String) (s : PState) :
    runOps (dirSetupOps d) s =
      applyOp (Op.mkdirIfAbsent (d ++ "lib/"))
        (applyOp (Op.mkdirIfAbsent (d ++ "include/"))
          (applyOp (Op.mkdirIfAbsent d) s)) := rfl

lemma dirSetup_mem (d : String) (s : PState) :
    d ∈ (runOps (dirSetupOps d) s).dirs ∧
    d ++ "include/" ∈ (runOps (dirSetupOps d) s).dirs ∧
    d ++ "lib/" ∈ (runOps (dirSetupOps d) s).dirs := by
  rw [dirSetup_run]
  refine ⟨?_, ?_, ?_⟩
  · exact mem_dirs_applyOp d (Op.mkdirIfAbsent (d ++ "lib/")) _
      (mem_dirs_applyOp d (Op.mkdirIfAbsent (d ++ "include/")) _
        (mkdir_mem_self d s) rfl) rfl
  · exact mem_dirs_applyOp (d ++ "include/") (Op.mkdirIfAbsent (d ++ "lib/")) _
      (mkdir_mem_self _ _) rfl
  · exact mkdir_mem_self _ _

lemma dirSetup_idem (d : String) (s : PState) :
    runOps (dirSetupOps d) (runOps (dirSetupOps d) s) = runOps (dirSetupOps d) s := by
  obtain ⟨h1, h2, h3⟩ := dirSetup_mem d s
  rw [dirSetup_run d (runOps (dirSetupOps d) s)]
  rw [mkdir_of_mem _ _ h1, mkdir_of_mem _ _ h2, mkdir_of_mem _ _ h3]

-- Manifest-write counting.

lemma tryBody_eq (home d pC sC : String) :
    tryBody home d pC sC =
      (install_petsc d pC ++ install_slepc d sC) ++
        write_deps_file home (d ++ "include/") d := rfl

lemma countP_preOps_deps (home : String) (pfx : Option String) :
    (preOps home pfx).countP isDepsWriteB = 0 := by
  cases pfx <;> rfl

lemma countP_tryBody_deps (home d pC sC : String) :
    (tryBody home d pC sC).countP isDepsWriteB = 1 := rfl

lemma countP_installers_deps (d pC sC : String) :
    (install_petsc d pC ++ install_slepc d sC).countP isDepsWriteB = 0 := rfl

-- Logger facts.

lemma writeAll_spec (msgs : List String) (l : Logger) :
    Logger.writeAll l msgs =
      { terminal := l.terminal ++ concatMsgs msgs, log := l.log ++ concatMsgs msgs } := by
  induction msgs generalizing l with
  | nil =>
      cases l with
      | mk t g => simp [Logger.writeAll, concatMsgs]
  | cons m ms ih =>
      show Logger.writeAll (Logger.write l m) ms = _
      rw [ih]
      simp [Logger.write, concatMsgs, String.append_assoc]

/-- C1, counterexample: a failure raised during configuration resolution —
here the `os.makedirs(install_dir)` call, the operation at index 1 of the
pre-`try` sequence — is NOT caught by the top-level handler: it propagates
out of `install_deps` uncaught and the handler never prints the error.  The
`try` block only starts after workspace preparation, so the claim's scope
"configuration resolution through manifest write" is wrong. -/
theorem c1_counterexample :
    (install_deps "/h" none "PB" "SB" "boom" (FailSpec.pre 1) initState).uncaught = true ∧
    "boom" ∉ (install_deps "/h" none "PB" "SB" "boom" (FailSpec.pre 1) initState).state.output := by
  decide

/-- C1, amended: every failure raised inside the `try` block (the two
installers and the manifest write) is caught exactly once by the top-level
handler, which prints the error, restores the working directory to its
value at program start, and deletes the build workspace, after which the
final message still prints; but failures raised before the `try` block
(logger setup, configuration resolution, workspace preparation) propagate
out of `install_deps` uncaught. -/
theorem c1_catch_scope (home : String) (pfx : Option String)
    (pC sC errMsg : String) (s0 : PState) (i j : Nat) :
    (install_deps home pfx pC sC errMsg (FailSpec.body i) s0).uncaught = false ∧
    (install_deps home pfx pC sC errMsg (FailSpec.body i) s0).state.cwd = s0.cwd ∧
    build_dir ∉ (install_deps home pfx pC sC errMsg (FailSpec.body i) s0).state.dirs ∧
    (install_deps home pfx pC sC errMsg (FailSpec.body i) s0).state.output =
      s0.output ++
        outputsOf (preOps home pfx ++
          (tryBody home (resolveInstallDir home pfx) pC sC).take i) ++
        [errMsg, "\x1b[92m" ++ "Finished installing pymode dependencies!" ++ "\x1b[0m"] ∧
    (install_deps home pfx pC sC errMsg (FailSpec.pre j) s0).uncaught = true := by
  refine ⟨rfl, ?_, ?_, ?_, rfl⟩
  · show (applyOp finishedMsg
        (install_end s0.cwd build_dir
          (applyOp (Op.print errMsg)
            (runOps ((tryBody home (resolveInstallDir home pfx) pC sC).take i)
              (runOps (preOps home pfx) s0))))).cwd = s0.cwd
    rw [finishedMsg_eq, cwd_applyOp_print]
    exact install_end_cwd _ _ _
  · show build_dir ∉ (applyOp finishedMsg
        (install_end s0.cwd build_dir
          (applyOp (Op.print errMsg)
            (runOps ((tryBody home (resolveInstallDir home pfx) pC sC).take i)
              (runOps (preOps home pfx) s0))))).dirs
    rw [finishedMsg_eq, dirs_applyOp_print]
    exact install_end_not_mem _ _ _
  · show (applyOp finishedMsg
        (install_end s0.cwd build_dir
          (applyOp (Op.print errMsg)
            (runOps ((tryBody home (resolveInstallDir home pfx) pC sC).take i)
              (runOps (preOps home pfx) s0))))).output = _
    rw [finishedMsg_eq, output_applyOp_print, install_end_output, output_applyOp_print,
      output_runOps, output_runOps]
    simp [outputsOf, List.filterMap_append]

/-- C2, counterexample: on a fully successful concrete run the build
workspace `./build/` still exists afterwards — the success-path
`install_end` call is commented out in the source, so no final cleanup
happens. -/
theorem c2_counterexample :
    build_dir ∈ (install_deps "/h" none "PB" "SB" "err" FailSpec.ok initState).state.dirs := by
  decide

/-- C2, amended: on a fully successful run the orchestrator performs no
final workspace cleanup (the `install_end` call on the success path is
commented out), so the build workspace survives completion; it is deleted
only on the failure path, by the exception handler. -/
theorem c2_no_success_cleanup (home : String) (pfx : Option String)
    (pC sC errMsg : String) (s0 : PState) (i : Nat) :
    build_dir ∈ (install_deps home pfx pC sC errMsg FailSpec.ok s0).state.dirs ∧
    build_dir ∉ (install_deps home pfx pC sC errMsg (FailSpec.body i) s0).state.dirs := by
  constructor
  · show build_dir ∈ (applyOp finishedMsg
        (runOps (tryBody home (resolveInstallDir home pfx) pC sC)
          (runOps (preOps home pfx) s0))).dirs
    rw [finishedMsg_eq, dirs_applyOp_print]
    exact mem_dirs_runOps _ _ _ (build_dir_mem_preOps home pfx s0)
      (tryBody_keeps_build home (resolveInstallDir home pfx) pC sC)
  · show build_dir ∉ (applyOp finishedMsg
        (install_end s0.cwd build_dir
          (applyOp (Op.print errMsg)
            (runOps ((tryBody home (resolveInstallDir home pfx) pC sC).take i)
              (runOps (preOps home pfx) s0))))).dirs
    rw [finishedMsg_eq, dirs_applyOp_print]
    exact install_end_not_mem _ _ _

/-- C3: on every run of `install_deps` in which no exception escapes
uncaught — that is, on a fully successful run and on any run whose failure
was caught by the top-level handler — the final completion message
"Finished installing pymode dependencies!" (in the green wrapping
`print_message` gives it) appears in the printed output. -/
theorem c3_finished_message (home : String) (pfx : Option String)
    (pC sC errMsg : String) (fail : FailSpec) (s0 : PState)
    (h : (install_deps home pfx pC sC errMsg fail s0).uncaught = false) :
    ("\x1b[92m" ++ "Finished installing pymode dependencies!" ++ "\x1b[0m") ∈
      (install_deps home pfx pC sC errMsg fail s0).state.output := by
  cases fail with
  | pre i =>
      have ht : (install_deps home pfx pC sC errMsg (FailSpec.pre i) s0).uncaught = true := rfl
      rw [ht] at h
      exact Bool.noConfusion h
  | ok =>
      show _ ∈ (applyOp finishedMsg
        (runOps (tryBody home (resolveInstallDir home pfx) pC sC)
          (runOps (preOps home pfx) s0))).output
      rw [finishedMsg_eq, output_applyOp_print]
      simp
  | body i =>
      show _ ∈ (applyOp finishedMsg
        (install_end s0.cwd build_dir
          (applyOp (Op.print errMsg)
            (runOps ((tryBody home (resolveInstallDir home pfx) pC sC).take i)
              (runOps (preOps home pfx) s0))))).output
      rw [finishedMsg_eq, output_applyOp_print]
      simp

/-- C3 witness: the final message is printed on a concrete successful run. -/
theorem c3_finished_message_witness :
    ("\x1b[92m" ++ "Finished installing pymode dependencies!" ++ "\x1b[0m") ∈
      (install_deps "/h" none "PB" "SB" "err" FailSpec.ok initState).state.output :=
  c3_finished_message "/h" none "PB" "SB" "err" FailSpec.ok initState rfl

/-- C4: for any `install_dir`, running `write_deps_file` from any state
leaves the file `home_dir + "/" + pymode_deps` with content exactly the
three lines `PETSC_DIR=<install_dir>`, `PETSC_ARCH=` (empty value) and
`SLEPC_DIR=<install_dir>` in that order, regardless of any pre-existing
content at that path (the `"w"` open truncates, so the file is entirely
replaced — no appended or duplicated keys). -/
theorem c4_manifest_content (home_dir include_dir install_dir : String) (s : PState) :
    getFile (runOps (write_deps_file home_dir include_dir install_dir) s).files
      (home_dir ++ "/" ++ pymode_deps) =
      some ("PETSC_DIR=" ++ install_dir ++ "\n" ++ "PETSC_ARCH=" ++ "\n" ++
        "SLEPC_DIR=" ++ install_dir ++ "\n") :=
  getFile_setFile s.files _ _

/-- C5: the orchestration contains exactly one manifest-write operation; it
sits after all operations of both installers; on a run where an installer
raises (a `try`-body failure at an index strictly inside the two installer
sequences) the operations actually executed contain no manifest write at
all; and on a fully successful run the manifest file holds the expected
content. -/
theorem c5_manifest_once (home : String) (pfx : Option String)
    (pC sC errMsg : String) (s0 : PState) (i : Nat)
    (hi : i < (install_petsc (resolveInstallDir home pfx) pC ++
      install_slepc (resolveInstallDir home pfx) sC).length) :
    (preOps home pfx ++ tryBody home (resolveInstallDir home pfx) pC sC).countP
        isDepsWriteB = 1 ∧
    (preOps home pfx ++
        (tryBody home (resolveInstallDir home pfx) pC sC).take i).countP
        isDepsWriteB = 0 ∧
    tryBody home (resolveInstallDir home pfx) pC sC =
      install_petsc (resolveInstallDir home pfx) pC ++
        install_slepc (resolveInstallDir home pfx) sC ++
        write_deps_file home (resolveInstallDir home pfx ++ "include/")
          (resolveInstallDir home pfx) ∧
    getFile (install_deps home pfx pC sC errMsg FailSpec.ok s0).state.files
        (home ++ "/" ++ pymode_deps) =
      some ("PETSC_DIR=" ++ resolveInstallDir home pfx ++ "\n" ++ "PETSC_ARCH=" ++ "\n" ++
        "SLEPC_DIR=" ++ resolveInstallDir home pfx ++ "\n") := by
  refine ⟨?_, ?_, rfl, ?_⟩
  · rw [List.countP_append, countP_preOps_deps, countP_tryBody_deps]
  · rw [List.countP_append, countP_preOps_deps]
    have h1 : (tryBody home (resolveInstallDir home pfx) pC sC).take i =
        (install_petsc (resolveInstallDir home pfx) pC ++
          install_slepc (resolveInstallDir home pfx) sC).take i := by
      rw [tryBody_eq]
      exact List.take_append_of_le_length (Nat.le_of_lt hi)
    rw [h1]
    have h2 := (List.take_sublist i (install_petsc (resolveInstallDir home pfx) pC ++
      install_slepc (resolveInstallDir home pfx) sC)).countP_le isDepsWriteB
    rw [countP_installers_deps] at h2
    omega
  · show getFile (applyOp finishedMsg
        (runOps (tryBody home (resolveInstallDir home pfx) pC sC)
          (runOps (preOps home pfx) s0))).files (home ++ "/" ++ pymode_deps) = _
    rw [finishedMsg_eq, files_applyOp_print, tryBody_eq, runOps_append]
    exact getFile_setFile _ _ _

/-- C5 witness: instantiation at a failure in the very first installer
operation of a concrete run. -/
theorem c5_manifest_once_witness :
    (preOps "/h" none ++
        (tryBody "/h" (resolveInstallDir "/h" none) "PB" "SB").take 0).countP
        isDepsWriteB = 0 :=
  (c5_manifest_once "/h" none "PB" "SB" "err" initState 0 (by decide)).2.1

/-- C6: with no prefix the install root is `home + "/.pymode/"`; with a
prefix it is the prefix string verbatim; and in both cases the resolver's
directory-creation operations target exactly the install root,
`installRoot + "include/"` and `installRoot + "lib/"`, derived by plain
string concatenation (no trailing-slash normalization). -/
theorem c6_install_root (home p : String) :
    resolveInstallDir home none = home ++ "/.pymode/" ∧
    resolveInstallDir home (some p) = p ∧
    (resolveOps home none).filter isMkdirB =
      [Op.mkdirIfAbsent (home ++ "/.pymode/"),
       Op.mkdirIfAbsent (home ++ "/.pymode/" ++ "include/"),
       Op.mkdirIfAbsent (home ++ "/.pymode/" ++ "lib/")] ∧
    (resolveOps home (some p)).filter isMkdirB =
      [Op.mkdirIfAbsent p,
       Op.mkdirIfAbsent (p ++ "include/"),
       Op.mkdirIfAbsent (p ++ "lib/")] :=
  ⟨rfl, rfl, rfl, rfl⟩

/-- C7: in `install_petsc` the environment sanitation (`PETSC_DIR`,
`PETSC_ARCH`) occupies exactly the first two operations, no sanitation
occurs later, the download is the first operation of its kind at index 3,
and the first `./configure` invocation comes only at index 8; likewise in
`install_slepc` the `SLEPC_DIR` removal is the first operation, the
download is at index 2 and the `./configure` call at index 7.  Hence in
both installers sanitation precedes download, which precedes configure, on
every invocation. -/
theorem c7_sanitize_first (install_dir pC sC : String) :
    ((install_petsc install_dir pC).take 2 =
        [Op.envDel "PETSC_DIR", Op.envDel "PETSC_ARCH"] ∧
      ((install_petsc install_dir pC).drop 2).all (fun op => !(isEnvDelB op)) = true ∧
      ((install_petsc install_dir pC).take 3).all (fun op => !(isDownloadB op)) = true ∧
      (install_petsc install_dir pC)[3]? =
        some (Op.download ("http://ftp.mcs.anl.gov/pub/petsc/release-snapshots/petsc-" ++
          PETSC_VERSION ++ ".tar.gz")) ∧
      ((install_petsc install_dir pC).take 8).all (fun op => !(isConfigureB op)) = true ∧
      ((install_petsc install_dir pC)[8]?.map isConfigureB) = some true) ∧
    ((install_slepc install_dir sC).take 1 = [Op.envDel "SLEPC_DIR"] ∧
      ((install_slepc install_dir sC).drop 1).all (fun op => !(isEnvDelB op)) = true ∧
      ((install_slepc install_dir sC).take 2).all (fun op => !(isDownloadB op)) = true ∧
      (install_slepc install_dir sC)[2]? =
        some (Op.download ("http://slepc.upv.es/download/distrib/slepc-" ++
          SLEPC_VERSION ++ ".tar.gz")) ∧
      ((install_slepc install_dir sC).take 7).all (fun op => !(isConfigureB op)) = true ∧
      ((install_slepc install_dir sC)[7]?.map isConfigureB) = some true) :=
  ⟨⟨rfl, rfl, rfl, rfl, rfl, rfl⟩, ⟨rfl, rfl, rfl, rfl, rfl, rfl⟩⟩

/-- C8: for any resolved install root (default or explicit prefix), the
resolver's directory-creation step leaves `install_root`,
`install_root + "include/"` and `install_root + "lib/"` present, and
running the same step again on the resulting state is a no-op (each
`os.makedirs` is guarded by an existence check, so the second run changes
nothing and raises no error). -/
theorem c8_mkdir_idempotent (home : String) (pfx : Option String) (s : PState) :
    resolveInstallDir home pfx ∈
      (runOps (dirSetupOps (resolveInstallDir home pfx)) s).dirs ∧
    resolveInstallDir home pfx ++ "include/" ∈
      (runOps (dirSetupOps (resolveInstallDir home pfx)) s).dirs ∧
    resolveInstallDir home pfx ++ "lib/" ∈
      (runOps (dirSetupOps (resolveInstallDir home pfx)) s).dirs ∧
    runOps (dirSetupOps (resolveInstallDir home pfx))
        (runOps (dirSetupOps (resolveInstallDir home pfx)) s) =
      runOps (dirSetupOps (resolveInstallDir home pfx)) s := by
  obtain ⟨h1, h2, h3⟩ := dirSetup_mem (resolveInstallDir home pfx) s
  exact ⟨h1, h2, h3, dirSetup_idem _ _⟩

/-- C9: after any sequence of writes through the `Logger`, the log file
contains exactly the concatenation of the written messages, and the
original terminal stream has received the same concatenation, in the same
order, appended to whatever it already held. -/
theorem c9_logger_tee (t0 : String) (msgs : List String) :
    (Logger.writeAll (Logger.init t0) msgs).log = concatMsgs msgs ∧
    (Logger.writeAll (Logger.init t0) msgs).terminal = t0 ++ concatMsgs msgs := by
  rw [writeAll_spec]
  constructor
  · show "" ++ concatMsgs msgs = concatMsgs msgs
    simp
  · rfl

/-- C10: on a fully successful run, the working directory at the time the
final message prints is the build workspace entered by `install_begin`
(the starting directory plus the `build` component) — a different directory
from the one the process started in; on the failure path the handler's
`install_end` is what moves it back to the start directory. -/
theorem c10_cwd_after_success (home : String) (pfx : Option String)
    (pC sC errMsg : String) (s0 : PState) (i : Nat) :
    (install_deps home pfx pC sC errMsg FailSpec.ok s0).state.cwd = s0.cwd ++ ["build"] ∧
    s0.cwd ++ ["build"] ≠ s0.cwd ∧
    (install_deps home pfx pC sC errMsg (FailSpec.body i) s0).state.cwd = s0.cwd := by
  refine ⟨?_, by simp, ?_⟩
  · show (applyOp finishedMsg
        (runOps (tryBody home (resolveInstallDir home pfx) pC sC)
          (runOps (preOps home pfx) s0))).cwd = s0.cwd ++ ["build"]
    rw [finishedMsg_eq, cwd_applyOp_print, cwd_runOps_chactions, opCh_tryBody,
      cwd_runOps_chactions, opCh_preOps]
    simp [applyCh]
  · show (applyOp finishedMsg
        (install_end s0.cwd build_dir
          (applyOp (Op.print errMsg)
            (runOps ((tryBody home (resolveInstallDir home pfx) pC sC).take i)
              (runOps (preOps home pfx) s0))))).cwd = s0.cwd
    rw [finishedMsg_eq, cwd_applyOp_print]
    exact install_end_cwd _ _ _
